import Mathlib

/-!
Verification of the tag-validate-action Gerrit key-verification engine and
display utilities.

The repository ships `src/tag_validate/display_utils.py` (embedded below as
`format_user_details`, `should_display_server`, `format_server_display`) and a
test suite for the CLI `gerrit` command.  The verification-engine modules
themselves (`tag_validate/cli.py`, `tag_validate/gerrit_keys.py`,
`tag_validate/models.py`) are not part of the provided sources, so the engine
(key classifier, identity resolver, account client, verification orchestration,
presenter) is modelled from the specification document; each such definition
carries a doc comment starting with "Modelled from the spec".
-/

namespace TagValidate

/-- Boolean check that the first list is a leading segment of the second
(a shallow embedding of Python's `str.startswith` on character lists). -/
def listPre : List Char → List Char → Bool
  | [], _ => true
  | _ :: _, [] => false
  | a :: as, b :: bs => a == b && listPre as bs

/-- String-level wrapper for `listPre`: does `s` start with `p`? -/
def strStarts (p s : String) : Bool := listPre p.data s.data

/-- Boolean check that the first list is a trailing segment of the second. -/
def listSuffixB (suf l : List Char) : Bool := listPre suf.reverse l.reverse

/-- Hexadecimal digit test, `[0-9a-fA-F]`, via code points. -/
def isHexChar (c : Char) : Bool :=
  (48 ≤ c.toNat && c.toNat ≤ 57) ||
  (97 ≤ c.toNat && c.toNat ≤ 102) ||
  (65 ≤ c.toNat && c.toNat ≤ 70)

/-- Uppercase hexadecimal digit test, `[0-9A-F]`, via code points. -/
def isUpperHexChar (c : Char) : Bool :=
  (48 ≤ c.toNat && c.toNat ≤ 57) || (65 ≤ c.toNat && c.toNat ≤ 70)

/-- Modelled from the spec: whitespace removal used by GPG key-id
normalization ("no whitespace" in the canonical form). -/
def stripWs (s : String) : String := ⟨s.data.filter (fun c => !c.isWhitespace)⟩

/-- Modelled from the spec: uppercasing used by GPG key-id normalization
("uppercase hex key ID"). -/
def upperStr (s : String) : String := ⟨s.data.map Char.toUpper⟩

/-- Modelled from the spec: removal of a leading `0X` marker from an
already-uppercased key id ("no leading 0x"). -/
def strip0X (s : String) : String :=
  if strStarts "0X" s then ⟨s.data.drop 2⟩ else s

/-- Modelled from the spec (§3, §4.1): GPG canonicalization — strip
whitespace, uppercase, and drop a leading `0x` marker. -/
def normalizeGpg (s : String) : String := strip0X (upperStr (stripWs s))

/-- Modelled from the spec (§3, §4.1): SSH canonicalization — an input that
already carries the `SHA256:` marker is used as-is, otherwise the marker is
synthesized in front of the bare fingerprint body. -/
def normalizeSsh (s : String) : String :=
  if strStarts "SHA256:" s then s else "SHA256:" ++ s

/-- Key kind decided once per invocation (spec §3). -/
inductive KeyType
  | GPG
  | SSH
deriving DecidableEq, Repr

/-- Modelled from the spec (§4.1): does the raw string look like a GPG key
id, i.e. 8 to 40 hexadecimal characters? -/
def looksLikeGpgId (s : String) : Bool :=
  8 ≤ s.data.length && s.data.length ≤ 40 && s.data.all isHexChar

/-- Modelled from the spec (§4.1): auto-detection order — `SHA256:` marker
first (SSH), then plausible GPG key-id shape (GPG), else SSH fallback. -/
def detectKeyType (raw : String) : KeyType :=
  if strStarts "SHA256:" raw then KeyType.SSH
  else if looksLikeGpgId raw then KeyType.GPG
  else KeyType.SSH

/-- Normalized key value object (spec §3). -/
structure NormalizedKey where
  type : KeyType
  raw : String
  canonical : String
deriving DecidableEq, Repr

/-- Error taxonomy of the engine (spec §7). -/
inductive VerifyError
  | invalidKeyFormat
  | ambiguousServerConfig
  | serverDiscoveryFailed
  | accountNotFound
  | gerritServiceError (msg : String)
deriving DecidableEq, Repr

/-- Modelled from the spec (§4.1): `classify` — an explicit type is
authoritative (normalization applied, detection skipped; explicit GPG with a
string that does not normalize to a nonempty hex id fails with
`invalidKeyFormat`); otherwise auto-detection picks the type. -/
def classify (raw : String) (explicitType : Option KeyType) :
    Except VerifyError NormalizedKey :=
  match explicitType with
  | some KeyType.GPG =>
      let c := normalizeGpg raw
      if c.data.all isUpperHexChar && !c.data.isEmpty then
        Except.ok ⟨KeyType.GPG, raw, c⟩
      else
        Except.error VerifyError.invalidKeyFormat
  | some KeyType.SSH => Except.ok ⟨KeyType.SSH, raw, normalizeSsh raw⟩
  | none =>
      match detectKeyType raw with
      | KeyType.GPG => Except.ok ⟨KeyType.GPG, raw, normalizeGpg raw⟩
      | KeyType.SSH => Except.ok ⟨KeyType.SSH, raw, normalizeSsh raw⟩

/-- Gerrit account record (spec §3). -/
structure GerritAccountInfo where
  account_id : Nat
  username : String
  email : String
  name : String
  status : String
deriving DecidableEq, Repr

/-- Structured verification result (spec §3). -/
structure KeyVerificationResult where
  key_registered : Bool
  username : String
  enumerated : Bool
  server : String
  service : String
  user_name : String
  user_email : String
deriving DecidableEq, Repr

/-- Engine output handed to the presenter: the result value, the detected
key type, and the explicit `test_mode` marker carried alongside it
(spec §6). -/
structure VerifyOutcome where
  result : KeyVerificationResult
  keyType : KeyType
  test_mode : Bool
deriving DecidableEq, Repr

/-- Mock of the remote Gerrit service state used to run the engine: what the
two account-lookup operations would return, and the fingerprint lists the
two key-listing operations would report. -/
structure GerritEnv where
  accountByEmail : Option GerritAccountInfo
  accountByUsername : Option GerritAccountInfo
  gpgFingerprints : List String
  sshFingerprints : List String
deriving DecidableEq, Repr

/-- Invocation counts of the two account-lookup operations. -/
structure LookupTrace where
  emails : Nat
  usernames : Nat
deriving DecidableEq, Repr

/-- Observable interaction record of one engine run with the Gerrit account
client: whether the client was constructed at all, and how often each
operation ran. -/
structure ClientTrace where
  constructed : Bool
  emailLookups : Nat
  usernameLookups : Nat
  gpgListings : Nat
  sshListings : Nat
deriving DecidableEq, Repr

/-- The all-zero trace: client never constructed, no operation invoked. -/
def emptyTrace : ClientTrace := ⟨false, 0, 0, 0, 0⟩

/-- Character containment in a string (a shallow embedding of Python's
`"@" in owner`), via the character list. -/
def strContains (s : String) (c : Char) : Bool := s.data.contains c

/-- Modelled from the spec (§4.2): `resolve_identity` — an owner containing
`@` goes to the email-lookup operation, any other owner to the
username-lookup operation; the chosen operation is called exactly once.
Returns the lookup result together with the per-operation call counts. -/
def resolve_identity (env : GerritEnv) (owner : String) :
    Option GerritAccountInfo × LookupTrace :=
  if strContains owner '@' then (env.accountByEmail, ⟨1, 0⟩)
  else (env.accountByUsername, ⟨0, 1⟩)

/-- Modelled from the spec (§4.4): case-insensitive tail match of a canonical
GPG key id against one full fingerprint reported by the server. -/
def gpgKeyMatches (canonical fp : String) : Bool :=
  listSuffixB canonical.data (fp.data.map Char.toUpper)

/-- Result fields populated from the resolved account, independent of match
outcome (spec §4.4); both verify operations enumerate the key list. -/
def mkLiveResult (reg : Bool) (a : GerritAccountInfo) (server : String) :
    KeyVerificationResult :=
  ⟨reg, a.username, true, server, "gerrit", a.name, a.email⟩

/-- Modelled from the spec (§4.5): the synthetic test-mode result — fixed
`key_registered`, `enumerated = false`, no account contacted. -/
def syntheticResult (owner server : String) : KeyVerificationResult :=
  ⟨true, owner, false, server, "gerrit", "", ""⟩

/-- Modelled from the spec (§4.5): the orchestrating entry point. Step 1
normalizes the key (terminal on failure, before any network access); test
mode bypasses all remaining steps and yields the synthetic result; otherwise
the client is constructed, the identity resolved (terminal on
`accountNotFound`, before any key listing), and the run dispatches on the
key type to the matching key-listing operation.  The second component is the
interaction trace with the client. -/
def verify (env : GerritEnv) (raw : String) (explicitType : Option KeyType)
    (owner server : String) (testMode : Bool) :
    Except VerifyError VerifyOutcome × ClientTrace :=
  match classify raw explicitType with
  | Except.error e => (Except.error e, emptyTrace)
  | Except.ok nk =>
    if testMode then
      (Except.ok ⟨syntheticResult owner server, nk.type, true⟩, emptyTrace)
    else
      let r := resolve_identity env owner
      let t1 : ClientTrace := ⟨true, r.2.emails, r.2.usernames, 0, 0⟩
      match r.1 with
      | none => (Except.error VerifyError.accountNotFound, t1)
      | some a =>
        match nk.type with
        | KeyType.GPG =>
          let reg := env.gpgFingerprints.any (gpgKeyMatches nk.canonical)
          (Except.ok ⟨mkLiveResult reg a server, KeyType.GPG, false⟩,
            { t1 with gpgListings := 1 })
        | KeyType.SSH =>
          let reg := env.sshFingerprints.any (fun k => k == nk.canonical)
          (Except.ok ⟨mkLiveResult reg a server, KeyType.SSH, false⟩,
            { t1 with sshListings := 1 })

/-- Modelled from the spec (§6): the presenter maps `key_registered = true`
to exit 0 and a negative result or any terminal error to a non-zero exit. -/
def exitCode (res : Except VerifyError VerifyOutcome) : Nat :=
  match res with
  | Except.ok o => if o.result.key_registered then 0 else 1
  | Except.error _ => 1

/-- Render a boolean as its JSON literal. -/
def boolJson (b : Bool) : String := if b then "true" else "false"

/-- Short user-facing message for each error kind. -/
def errMsg : VerifyError → String
  | VerifyError.invalidKeyFormat => "Error: invalid key format"
  | VerifyError.ambiguousServerConfig => "Error: ambiguous server configuration"
  | VerifyError.serverDiscoveryFailed => "Error: server discovery failed"
  | VerifyError.accountNotFound => "Error: account not found"
  | VerifyError.gerritServiceError m => "Error: " ++ m

/-- Modelled from the spec (§6): human-text rendering of the outcome. -/
def renderText (res : Except VerifyError VerifyOutcome) : String :=
  match res with
  | Except.ok o =>
      if o.result.key_registered then "REGISTERED: " ++ o.result.username
      else "NOT REGISTERED"
  | Except.error e => errMsg e

/-- Modelled from the spec (§6): JSON rendering of the outcome. -/
def renderJson (res : Except VerifyError VerifyOutcome) : String :=
  match res with
  | Except.ok o =>
      "\x7b\"success\": " ++ boolJson o.result.key_registered ++
      ", \"is_registered\": " ++ boolJson o.result.key_registered ++
      ", \"test_mode\": " ++ boolJson o.test_mode ++ "\x7d"
  | Except.error e =>
      "\x7b\"success\": false, \"error\": \"" ++ errMsg e ++ "\"\x7d"

/-- Modelled from the spec (§2, §6): one CLI run — execute the engine, then
render (human text or JSON) and map to an exit code.  The JSON flag only
affects rendering, never the engine interaction trace. -/
def runGerritCli (env : GerritEnv) (raw : String) (et : Option KeyType)
    (owner server : String) (testMode jsonMode : Bool) :
    (String × Nat) × ClientTrace :=
  let vr := verify env raw et owner server testMode
  ((if jsonMode then renderJson vr.1 else renderText vr.1, exitCode vr.1), vr.2)

/-- Python truthiness of an optional string: `None` and the empty string are
falsy (`display_utils.py` uses bare `if username:` checks). -/
def truthy : Option String → Bool
  | none => false
  | some s => !(s == "")

/-- Embedding of `display_utils.format_user_details`: emit one bullet per
truthy argument, in the order username, email, name. -/
def format_user_details (username email name : Option String) : List String :=
  let l1 := if truthy username then ["  • Username: " ++ username.getD ""] else []
  let l2 := if truthy email then ["  • Email: " ++ email.getD ""] else []
  let l3 := if truthy name then ["  • Name: " ++ name.getD ""] else []
  l1 ++ l2 ++ l3

/-- Embedding of `display_utils.should_display_server`: falsy server never
displays; Gerrit always displays; GitHub displays only off `github.com`;
any other service never displays. -/
def should_display_server (service : String) (server : Option String) : Bool :=
  match server with
  | none => false
  | some sv =>
    if sv = "" then false
    else if service = "gerrit" then true
    else if service = "github" then !(sv == "github.com")
    else false

/-- Embedding of `display_utils.format_server_display`: `none` when the
server should not be displayed, otherwise a labelled display string. -/
def format_server_display (service : String) (server : Option String) :
    Option String :=
  if should_display_server service server then
    let service_name := if service = "gerrit" then "Gerrit" else "GitHub"
    some (service_name ++ " Server: " ++ server.getD "")
  else none

/-- Two characters are equal up to hex-letter case: either identical, or
both hexadecimal digits with the same uppercase image. -/
def charCaseEqB (c1 c2 : Char) : Bool :=
  c1 == c2 || (isHexChar c1 && isHexChar c2 && (c1.toUpper == c2.toUpper))

/-- Two character lists differ only in hex-letter case, position by
position. -/
def caseEqList : List Char → List Char → Bool
  | [], [] => true
  | c1 :: t1, c2 :: t2 => charCaseEqB c1 c2 && caseEqList t1 t2
  | _ :: _, [] => false
  | [], _ :: _ => false

/-- One optional bullet line: nothing for an absent or empty value, exactly
one line `pre ++ value` otherwise (specification-side description of
`format_user_details`, compared against the embedding in C9). -/
def bulletLine (pre : String) (v : Option String) : List String :=
  match v with
  | none => []
  | some s => if s = "" then [] else [pre ++ s]

/-- Equality of `Except` values over the engine's error and outcome types is
decidable, so concrete runs can be checked by evaluation. -/
instance : DecidableEq (Except VerifyError VerifyOutcome) := fun a b =>
  match a, b with
  | Except.ok x, Except.ok y =>
      if h : x = y then isTrue (by rw [h]) else isFalse (by simp [h])
  | Except.error x, Except.error y =>
      if h : x = y then isTrue (by rw [h]) else isFalse (by simp [h])
  | Except.ok _, Except.error _ => isFalse (by simp)
  | Except.error _, Except.ok _ => isFalse (by simp)

/-- Same decidability for classification results. -/
instance : DecidableEq (Except VerifyError NormalizedKey) := fun a b =>
  match a, b with
  | Except.ok x, Except.ok y =>
      if h : x = y then isTrue (by rw [h]) else isFalse (by simp [h])
  | Except.error x, Except.error y =>
      if h : x = y then isTrue (by rw [h]) else isFalse (by simp [h])
  | Except.ok _, Except.error _ => isFalse (by simp)
  | Except.error _, Except.ok _ => isFalse (by simp)

lemma listPre_self_append (p t : List Char) : listPre p (p ++ t) = true := by
  induction p with
  | nil => rfl
  | cons a as ih => simp [listPre, ih]

lemma strStarts_append (p b : String) : strStarts p (p ++ b) = true := by
  unfold strStarts
  rw [String.data_append]
  exact listPre_self_append p.data b.data

lemma char_eq_iff_toNat (c d : Char) : c = d ↔ c.toNat = d.toNat :=
  ⟨fun h => by rw [h], fun h => Char.ext (UInt32.toNat.inj h)⟩

lemma isWhitespace_iff (c : Char) :
    c.isWhitespace = true ↔
      (c.toNat = 32 ∨ c.toNat = 9 ∨ c.toNat = 13 ∨ c.toNat = 10) := by
  have e1 : (' ' : Char).toNat = 32 := rfl
  have e2 : ('\t' : Char).toNat = 9 := rfl
  have e3 : ('\x0d' : Char).toNat = 13 := rfl
  have e4 : ('\n' : Char).toNat = 10 := rfl
  simp only [Char.isWhitespace, Bool.or_eq_true, decide_eq_true_eq,
    char_eq_iff_toNat, e1, e2, e3, e4]
  tauto

lemma isHexChar_ranges (c : Char) (h : isHexChar c = true) :
    (48 ≤ c.toNat ∧ c.toNat ≤ 57) ∨ (97 ≤ c.toNat ∧ c.toNat ≤ 102) ∨
      (65 ≤ c.toNat ∧ c.toNat ≤ 70) := by
  have := h
  simp only [isHexChar, Bool.or_eq_true, Bool.and_eq_true,
    decide_eq_true_eq] at this
  tauto

lemma isUpperHexChar_ranges (c : Char) (h : isUpperHexChar c = true) :
    (48 ≤ c.toNat ∧ c.toNat ≤ 57) ∨ (65 ≤ c.toNat ∧ c.toNat ≤ 70) := by
  have := h
  simp only [isUpperHexChar, Bool.or_eq_true, Bool.and_eq_true,
    decide_eq_true_eq] at this
  tauto

lemma hex_not_ws (c : Char) (h : isHexChar c = true) :
    c.isWhitespace = false := by
  have hr := isHexChar_ranges c h
  by_contra hb
  have : c.isWhitespace = true := by
    cases hw : c.isWhitespace
    · exact absurd hw hb
    · rfl
  have := (isWhitespace_iff c).mp this
  omega

lemma upperHex_not_ws (c : Char) (h : isUpperHexChar c = true) :
    c.isWhitespace = false := by
  have hr := isUpperHexChar_ranges c h
  by_contra hb
  have : c.isWhitespace = true := by
    cases hw : c.isWhitespace
    · exact absurd hw hb
    · rfl
  have := (isWhitespace_iff c).mp this
  omega

lemma upperHex_toUpper_eq (c : Char) (h : isUpperHexChar c = true) :
    c.toUpper = c := by
  have hr := isUpperHexChar_ranges c h
  simp only [Char.toUpper]
  rw [if_neg]
  omega

lemma map_eq_self_of (l : List Char) (f : Char → Char)
    (h : ∀ x ∈ l, f x = x) : l.map f = l := by
  induction l with
  | nil => rfl
  | cons a t ih =>
    simp only [List.map_cons, h a (by simp)]
    rw [ih (fun x hx => h x (by simp [hx]))]

lemma upperFilter_eq : ∀ l1 l2 : List Char, caseEqList l1 l2 = true →
    (l1.filter (fun c => !c.isWhitespace)).map Char.toUpper =
      (l2.filter (fun c => !c.isWhitespace)).map Char.toUpper := by
  intro l1
  induction l1 with
  | nil =>
    intro l2 h
    cases l2 with
    | nil => rfl
    | cons b t2 => exact absurd h (by simp [caseEqList])
  | cons a t ih =>
    intro l2 h
    cases l2 with
    | nil => exact absurd h (by simp [caseEqList])
    | cons b t2 =>
      simp only [caseEqList, Bool.and_eq_true] at h
      obtain ⟨hab, ht⟩ := h
      have htail := ih t2 ht
      simp only [charCaseEqB, Bool.or_eq_true, Bool.and_eq_true,
        beq_iff_eq] at hab
      rcases hab with hEq | ⟨⟨hha, hhb⟩, hup⟩
      · subst hEq
        simp only [List.filter_cons]
        by_cases hw : a.isWhitespace
        · simp [hw, htail]
        · simp [hw, htail]
      · have hwa := hex_not_ws a hha
        have hwb := hex_not_ws b hhb
        simp only [List.filter_cons, hwa, hwb, Bool.not_false, if_pos,
          List.map_cons, hup, htail]

/-- The GPG canonicalizer, written over the underlying character list. -/
lemma normalizeGpg_data (k : String) :
    normalizeGpg k =
      strip0X ⟨(k.data.filter (fun c => !c.isWhitespace)).map Char.toUpper⟩ :=
  rfl

/-- A nonempty-or-not string of uppercase hex digits is a fixed point of the
GPG canonicalizer. -/
lemma normalizeGpg_fixed (m : String) (h : m.data.all isUpperHexChar = true) :
    normalizeGpg m = m := by
  obtain ⟨l⟩ := m
  have hall : ∀ c ∈ l, isUpperHexChar c = true := by
    simpa [List.all_eq_true] using h
  have h1 : stripWs ⟨l⟩ = ⟨l⟩ := by
    unfold stripWs
    have : l.filter (fun c => !c.isWhitespace) = l :=
      List.filter_eq_self.mpr
        (fun a ha => by simp [upperHex_not_ws a (hall a ha)])
    simp only [this]
  have h2 : upperStr ⟨l⟩ = ⟨l⟩ := by
    unfold upperStr
    have : l.map Char.toUpper = l :=
      map_eq_self_of _ _ (fun x hx => upperHex_toUpper_eq x (hall x hx))
    simp only [this]
  have h3 : strip0X ⟨l⟩ = ⟨l⟩ := by
    unfold strip0X
    rw [if_neg]
    intro hpre
    have hd : ("0X" : String).data = ['0', 'X'] := rfl
    rw [strStarts, hd] at hpre
    cases l with
    | nil => exact absurd hpre (by simp [listPre])
    | cons c cs =>
      cases cs with
      | nil => exact absurd hpre (by simp [listPre])
      | cons c2 cs2 =>
        simp only [listPre, Bool.and_eq_true, beq_iff_eq] at hpre
        obtain ⟨hc, hc2, _⟩ := hpre
        have hx : isUpperHexChar c2 = true := hall c2 (by simp)
        rw [← hc2] at hx
        exact absurd hx (by decide)
  show strip0X (upperStr (stripWs ⟨l⟩)) = ⟨l⟩
  rw [h1, h2, h3]

/-- C1: auto-detection classifies every string starting with `SHA256:` as
SSH, every other string of 8 to 40 hex characters as GPG, and every
remaining string as SSH (bare fingerprint body); `classify` without an
explicit type succeeds and carries exactly the auto-detected type. -/
theorem c1_key_classification (s : String) :
    (strStarts "SHA256:" s = true → detectKeyType s = KeyType.SSH) ∧
    (strStarts "SHA256:" s = false → looksLikeGpgId s = true →
      detectKeyType s = KeyType.GPG) ∧
    (strStarts "SHA256:" s = false → looksLikeGpgId s = false →
      detectKeyType s = KeyType.SSH) ∧
    (∃ nk, classify s none = Except.ok nk ∧ nk.type = detectKeyType s) := by
  refine ⟨?_, ?_, ?_, ?_⟩
  · intro h; simp [detectKeyType, h]
  · intro h1 h2; simp [detectKeyType, h1, h2]
  · intro h1 h2; simp [detectKeyType, h1, h2]
  · cases hd : detectKeyType s with
    | GPG => exact ⟨⟨KeyType.GPG, s, normalizeGpg s⟩, by simp [classify, hd], rfl⟩
    | SSH => exact ⟨⟨KeyType.SSH, s, normalizeSsh s⟩, by simp [classify, hd], rfl⟩

/-- Witness for C1 at concrete inputs: an `SHA256:`-marked fingerprint, a
16-digit hex key id, and a non-hex string. -/
theorem c1_key_classification_witness :
    detectKeyType "SHA256:nThbg6kXUpJWGl7E1IGOCspRomTxdCARLviKw6E5SY8" =
      KeyType.SSH ∧
    detectKeyType "FCE8AAABF53080F6" = KeyType.GPG ∧
    detectKeyType "not-hex!" = KeyType.SSH :=
  ⟨(c1_key_classification
      "SHA256:nThbg6kXUpJWGl7E1IGOCspRomTxdCARLviKw6E5SY8").1 (by decide),
   (c1_key_classification "FCE8AAABF53080F6").2.1 (by decide) (by decide),
   (c1_key_classification "not-hex!").2.2.1 (by decide) (by decide)⟩

/-- C5: SSH canonicalization is marker-insensitive — a bare fingerprint body
normalizes to the same `SHA256:`-marked canonical value as its marked form,
an already-marked input is used as-is, and every canonical value carries the
`SHA256:` marker. -/
theorem c5_ssh_canonicalization (b : String) :
    (strStarts "SHA256:" b = false →
      normalizeSsh b = normalizeSsh ("SHA256:" ++ b) ∧
      normalizeSsh b = "SHA256:" ++ b) ∧
    (strStarts "SHA256:" b = true → normalizeSsh b = b) ∧
    strStarts "SHA256:" (normalizeSsh b) = true := by
  refine ⟨?_, ?_, ?_⟩
  · intro h
    have h2 := strStarts_append "SHA256:" b
    exact ⟨by simp [normalizeSsh, h, h2], by simp [normalizeSsh, h]⟩
  · intro h; simp [normalizeSsh, h]
  · cases h : strStarts "SHA256:" b with
    | true => simp [normalizeSsh, h]
    | false => simp [normalizeSsh, h, strStarts_append]

/-- Witness for C5 at the concrete bare body used by the test suite. -/
theorem c5_ssh_canonicalization_witness :
    normalizeSsh "abcdef1234567890abcdef1234567890abcdef12" =
      normalizeSsh ("SHA256:" ++ "abcdef1234567890abcdef1234567890abcdef12") ∧
    normalizeSsh "abcdef1234567890abcdef1234567890abcdef12" =
      "SHA256:" ++ "abcdef1234567890abcdef1234567890abcdef12" ∧
    normalizeSsh "SHA256:nThbg6kXUpJWGl7E1IGOCspRomTxdCARLviKw6E5SY8" =
      "SHA256:nThbg6kXUpJWGl7E1IGOCspRomTxdCARLviKw6E5SY8" :=
  ⟨((c5_ssh_canonicalization
      "abcdef1234567890abcdef1234567890abcdef12").1 (by decide)).1,
   ((c5_ssh_canonicalization
      "abcdef1234567890abcdef1234567890abcdef12").1 (by decide)).2,
   (c5_ssh_canonicalization
      "SHA256:nThbg6kXUpJWGl7E1IGOCspRomTxdCARLviKw6E5SY8").2.1 (by decide)⟩

/-- C6: GPG normalization is idempotent on every GPG key id (a string whose
canonical form is uppercase hex), and normalizing two key ids that differ
only in hex-letter case gives equal canonical values. -/
theorem c6_gpg_normalization (k k1 k2 : String) :
    ((normalizeGpg k).data.all isUpperHexChar = true →
      normalizeGpg (normalizeGpg k) = normalizeGpg k) ∧
    (caseEqList k1.data k2.data = true → normalizeGpg k1 = normalizeGpg k2) := by
  constructor
  · intro h
    exact normalizeGpg_fixed _ h
  · intro h
    rw [normalizeGpg_data k1, normalizeGpg_data k2, upperFilter_eq _ _ h]

/-- Witness for C6 at the test suite's key id, lowercase versus uppercase. -/
theorem c6_gpg_normalization_witness :
    normalizeGpg (normalizeGpg "0xfce8 aaab") = normalizeGpg "0xfce8 aaab" ∧
    normalizeGpg "fce8aaabf53080f6" = normalizeGpg "FCE8AAABF53080F6" :=
  ⟨(c6_gpg_normalization "0xfce8 aaab" "" "").1 (by decide),
   (c6_gpg_normalization "" "fce8aaabf53080f6" "FCE8AAABF53080F6").2
     (by decide)⟩

/-- C2: identity resolution dispatches on the `@` character — an owner
containing `@` drives exactly one email lookup and no username lookup, and
an owner without `@` drives exactly one username lookup and no email
lookup. -/
theorem c2_identity_dispatch (env : GerritEnv) (owner : String) :
    (strContains owner '@' = true →
      (resolve_identity env owner).2.emails = 1 ∧
      (resolve_identity env owner).2.usernames = 0) ∧
    (strContains owner '@' = false →
      (resolve_identity env owner).2.emails = 0 ∧
      (resolve_identity env owner).2.usernames = 1) := by
  constructor <;> intro h <;> simp [resolve_identity, h]

/-- Witness for C2 at the test suite's email and username owners. -/
theorem c2_identity_dispatch_witness :
    ((resolve_identity ⟨none, none, [], []⟩ "jdoe@example.com").2.emails = 1 ∧
     (resolve_identity ⟨none, none, [], []⟩ "jdoe@example.com").2.usernames = 0) ∧
    ((resolve_identity ⟨none, none, [], []⟩ "jdoe").2.emails = 0 ∧
     (resolve_identity ⟨none, none, [], []⟩ "jdoe").2.usernames = 1) :=
  ⟨(c2_identity_dispatch ⟨none, none, [], []⟩ "jdoe@example.com").1 (by decide),
   (c2_identity_dispatch ⟨none, none, [], []⟩ "jdoe").2 (by decide)⟩

/-- C3: when the account lookup returns no account, the live run terminates
with `accountNotFound` — an error, not a negative success — and performs no
key-listing operation at all. -/
theorem c3_account_not_found_terminal (env : GerritEnv) (raw : String)
    (et : Option KeyType) (owner server : String) (nk : NormalizedKey)
    (hc : classify raw et = Except.ok nk)
    (hn : (resolve_identity env owner).1 = none) :
    (verify env raw et owner server false).1 =
      Except.error VerifyError.accountNotFound ∧
    (verify env raw et owner server false).2.gpgListings = 0 ∧
    (verify env raw et owner server false).2.sshListings = 0 := by
  unfold verify
  rw [hc]
  simp [hn]

/-- Witness for C3: a concrete environment with no matching account, the
test suite's key id and email owner. -/
theorem c3_account_not_found_terminal_witness :
    (verify ⟨none, none, [], []⟩ "FCE8AAABF53080F6" none "jdoe@example.com"
      "gerrit.onap.org" false).1 =
        Except.error VerifyError.accountNotFound ∧
    (verify ⟨none, none, [], []⟩ "FCE8AAABF53080F6" none "jdoe@example.com"
      "gerrit.onap.org" false).2.gpgListings = 0 ∧
    (verify ⟨none, none, [], []⟩ "FCE8AAABF53080F6" none "jdoe@example.com"
      "gerrit.onap.org" false).2.sshListings = 0 :=
  c3_account_not_found_terminal ⟨none, none, [], []⟩ "FCE8AAABF53080F6" none
    "jdoe@example.com" "gerrit.onap.org"
    ⟨KeyType.GPG, "FCE8AAABF53080F6", "FCE8AAABF53080F6"⟩ (by decide)
    (by decide)

/-- C4: with test mode enabled, the CLI run never constructs the Gerrit
account client and performs zero lookups and zero key listings, for every
key, owner, environment, and for both output modes. -/
theorem c4_test_mode_no_network (env : GerritEnv) (raw : String)
    (et : Option KeyType) (owner server : String) (jsonMode : Bool) :
    (runGerritCli env raw et owner server true jsonMode).2.constructed = false ∧
    (runGerritCli env raw et owner server true jsonMode).2.emailLookups = 0 ∧
    (runGerritCli env raw et owner server true jsonMode).2.usernameLookups = 0 ∧
    (runGerritCli env raw et owner server true jsonMode).2.gpgListings = 0 ∧
    (runGerritCli env raw et owner server true jsonMode).2.sshListings = 0 := by
  unfold runGerritCli verify
  cases hc : classify raw et <;> simp [emptyTrace]

/-- C7: the presenter maps a registered key to exit code zero and a
non-registered key or any terminal error to a non-zero exit code. -/
theorem c7_exit_code_mapping (o : VerifyOutcome) (e : VerifyError) :
    (o.result.key_registered = true → exitCode (Except.ok o) = 0) ∧
    (o.result.key_registered = false → exitCode (Except.ok o) ≠ 0) ∧
    exitCode (Except.error e) ≠ 0 := by
  refine ⟨?_, ?_, ?_⟩
  · intro h; simp [exitCode, h]
  · intro h; simp [exitCode, h]
  · simp [exitCode]

/-- Witness for C7 at a concrete registered outcome, a concrete
non-registered outcome, and the account-not-found error. -/
theorem c7_exit_code_mapping_witness :
    exitCode (Except.ok ⟨⟨true, "jdoe", true, "gerrit.onap.org", "gerrit",
      "John Doe", "jdoe@example.com"⟩, KeyType.GPG, false⟩) = 0 ∧
    exitCode (Except.ok ⟨⟨false, "jdoe", true, "gerrit.onap.org", "gerrit",
      "John Doe", "jdoe@example.com"⟩, KeyType.GPG, false⟩) ≠ 0 ∧
    exitCode (Except.error VerifyError.accountNotFound) ≠ 0 :=
  ⟨(c7_exit_code_mapping ⟨⟨true, "jdoe", true, "gerrit.onap.org", "gerrit",
      "John Doe", "jdoe@example.com"⟩, KeyType.GPG, false⟩
      VerifyError.accountNotFound).1 (by decide),
   (c7_exit_code_mapping ⟨⟨false, "jdoe", true, "gerrit.onap.org", "gerrit",
      "John Doe", "jdoe@example.com"⟩, KeyType.GPG, false⟩
      VerifyError.accountNotFound).2.1 (by decide),
   (c7_exit_code_mapping ⟨⟨false, "jdoe", true, "gerrit.onap.org", "gerrit",
      "John Doe", "jdoe@example.com"⟩, KeyType.GPG, false⟩
      VerifyError.accountNotFound).2.2⟩

/-- C8: the synthetic test-mode outcome carries the key type that
classification detected, carries the `test_mode` marker set to `true`
(while every live outcome carries it set to `false`), and for a GPG key id
is a deterministic success. -/
theorem c8_test_mode_fidelity (env : GerritEnv) (raw : String)
    (et : Option KeyType) (owner server : String) (nk : NormalizedKey)
    (hc : classify raw et = Except.ok nk) :
    (∃ o, (verify env raw et owner server true).1 = Except.ok o ∧
      o.keyType = nk.type ∧ o.test_mode = true ∧
      (nk.type = KeyType.GPG → o.result.key_registered = true)) ∧
    (∀ o, (verify env raw et owner server false).1 = Except.ok o →
      o.test_mode = false) := by
  constructor
  · refine ⟨⟨syntheticResult owner server, nk.type, true⟩, ?_, rfl, rfl, ?_⟩
    · unfold verify
      rw [hc]
      simp
    · intro _
      rfl
  · intro o ho
    unfold verify at ho
    rw [hc] at ho
    rcases hr : (resolve_identity env owner).1 with _ | a
    · simp [hr] at ho
    · cases ht : nk.type
      · simp [hr, ht] at ho
        rw [← ho]
      · simp [hr, ht] at ho
        rw [← ho]

/-- Witness for C8 at the test suite's GPG key id and owners. -/
theorem c8_test_mode_fidelity_witness :
    (∃ o, (verify ⟨none, none, [], []⟩ "FCE8AAABF53080F6" none
        "jdoe@example.com" "gerrit.onap.org" true).1 = Except.ok o ∧
      o.keyType = KeyType.GPG ∧ o.test_mode = true ∧
      (KeyType.GPG = KeyType.GPG → o.result.key_registered = true)) ∧
    (∀ o, (verify ⟨none, none, [], []⟩ "FCE8AAABF53080F6" none
        "jdoe@example.com" "gerrit.onap.org" false).1 = Except.ok o →
      o.test_mode = false) :=
  c8_test_mode_fidelity ⟨none, none, [], []⟩ "FCE8AAABF53080F6" none
    "jdoe@example.com" "gerrit.onap.org"
    ⟨KeyType.GPG, "FCE8AAABF53080F6", "FCE8AAABF53080F6"⟩ (by decide)

lemma bullet_of_truthy (pre : String) (v : Option String) :
    (if truthy v then [pre ++ v.getD ""] else []) = bulletLine pre v := by
  rcases v with _ | s
  · rfl
  · by_cases hs : s = ""
    · subst hs; rfl
    · simp [bulletLine, truthy, hs]

lemma bulletLine_length (pre : String) (v : Option String) :
    (bulletLine pre v).length = (truthy v).toNat := by
  rcases v with _ | s
  · rfl
  · by_cases hs : s = ""
    · subst hs; rfl
    · have hb : (s == "") = false := by simp [hs]
      simp [bulletLine, truthy, hs, hb]

lemma bulletLine_empty (pre : String) (v : Option String)
    (h : truthy v = false) : bulletLine pre v = [] := by
  rcases v with _ | s
  · rfl
  · simp only [truthy, Bool.not_eq_false'] at h
    simp [bulletLine, beq_iff_eq.mp h]

/-- C9: `format_user_details` returns exactly one bullet line per present,
nonempty argument, always in the order username, email, name, each line of
the form `  • Label: value`; with all arguments absent or empty it returns
the empty list. -/
theorem c9_format_user_details (u e n : Option String) :
    format_user_details u e n =
      bulletLine "  • Username: " u ++ bulletLine "  • Email: " e ++
        bulletLine "  • Name: " n ∧
    (format_user_details u e n).length =
      (truthy u).toNat + (truthy e).toNat + (truthy n).toNat ∧
    (truthy u = false → truthy e = false → truthy n = false →
      format_user_details u e n = []) := by
  have h1 : format_user_details u e n =
      bulletLine "  • Username: " u ++ bulletLine "  • Email: " e ++
        bulletLine "  • Name: " n := by
    simp only [format_user_details]
    rw [← bullet_of_truthy, ← bullet_of_truthy, ← bullet_of_truthy]
  refine ⟨h1, ?_, ?_⟩
  · rw [h1]
    simp [List.length_append, bulletLine_length]
    omega
  · intro hu he hn
    rw [h1, bulletLine_empty _ _ hu, bulletLine_empty _ _ he,
      bulletLine_empty _ _ hn]
    rfl

/-- Witness for C9 at a concrete mix of present, absent, and empty
arguments. -/
theorem c9_format_user_details_witness :
    format_user_details (some "octocat") none (some "The Octocat") =
      bulletLine "  • Username: " (some "octocat") ++
        bulletLine "  • Email: " none ++
        bulletLine "  • Name: " (some "The Octocat") ∧
    (format_user_details (some "octocat") none (some "The Octocat")).length =
      2 ∧
    format_user_details none (some "") none = [] :=
  ⟨(c9_format_user_details (some "octocat") none (some "The Octocat")).1,
   (c9_format_user_details (some "octocat") none (some "The Octocat")).2.1,
   (c9_format_user_details none (some "") none).2.2 (by decide) (by decide)
     (by decide)⟩

/-- C10: `format_server_display` yields `none` exactly when
`should_display_server` is false; display is suppressed for an absent or
empty server and for services other than gerrit and github, always on for
gerrit with a server, and on for github exactly off `github.com`; a
displayed server is rendered as `<Gerrit|GitHub> Server: <server>` with
every non-gerrit service labelled GitHub. -/
theorem c10_server_display (service : String) (server : Option String)
    (sv : String) :
    (format_server_display service server = none ↔
      should_display_server service server = false) ∧
    should_display_server service none = false ∧
    should_display_server service (some "") = false ∧
    (sv ≠ "" → should_display_server "gerrit" (some sv) = true) ∧
    (sv ≠ "" → (should_display_server "github" (some sv) = true ↔
      sv ≠ "github.com")) ∧
    (service ≠ "gerrit" → service ≠ "github" →
      should_display_server service server = false) ∧
    (∀ s, server = some s → should_display_server service server = true →
      format_server_display service server =
        some ((if service = "gerrit" then "Gerrit" else "GitHub") ++
          " Server: " ++ s)) := by
  refine ⟨?_, rfl, ?_, ?_, ?_, ?_, ?_⟩
  · cases h : should_display_server service server <;>
      simp [format_server_display, h]
  · simp [should_display_server]
  · intro h
    simp [should_display_server, h]
  · intro h
    simp [should_display_server, h]
  · intro h1 h2
    rcases server with _ | s
    · rfl
    · simp [should_display_server, h1, h2]
  · intro s hs hd
    subst hs
    simp only [format_server_display, hd, if_true]
    simp

/-- Witness for C10 at the gerrit service with a concrete server. -/
theorem c10_server_display_witness :
    should_display_server "gerrit" (some "gerrit.onap.org") = true ∧
    format_server_display "gerrit" (some "gerrit.onap.org") =
      some ((if ("gerrit" : String) = "gerrit" then "Gerrit" else "GitHub") ++
        " Server: " ++ "gerrit.onap.org") :=
  ⟨(c10_server_display "gerrit" (some "gerrit.onap.org")
      "gerrit.onap.org").2.2.2.1 (by decide),
   (c10_server_display "gerrit" (some "gerrit.onap.org")
      "gerrit.onap.org").2.2.2.2.2.2 "gerrit.onap.org" rfl (by decide)⟩

end TagValidate
